import Mathlib

/-!
Verification development for the PDF2JPG service (`src/main.py`).

The Python module is a thin FastAPI orchestration layer.  We embed it
shallowly:

* the filesystem is an explicit state (`FS`): an association list from file
  paths to byte contents, plus a list of existing directories;
* byte strings are `List Nat`;
* the external capabilities (the `requests` HTTP fetch, the `pdf2image`
  rasterizer, the `zipfile` on-disk materialisation, `shutil.rmtree`) are
  oracles passed in as explicit parameters describing what the external
  world did; the code's own control flow around those oracles is translated
  line by line from `src/main.py`;
* each Python function becomes a Lean function of the same name returning
  its value together with the updated filesystem; exceptions that the code
  catches are represented by the oracle constructors for "the external call
  threw", and HTTP error responses by an `Except` value inside the handler.
-/

/-- Byte strings (file contents, upload bodies, transfer chunks). -/
abbrev Bytes := List Nat

/-- Filesystem state: files (path ↦ content) and the set of directories. -/
structure FS where
  files : List (String × Bytes)
  dirs : List String
deriving DecidableEq

/-- Python `os.path.exists`, restricted to files. -/
def existsFile (fs : FS) (p : String) : Bool :=
  fs.files.any (fun e => e.1 == p)

/-- Whether a directory entry exists. -/
def dirHas (fs : FS) (d : String) : Bool :=
  fs.dirs.any (fun x => x == d)

/-- Python `os.path.exists`: a path exists when it is a file or a directory. -/
def existsPath (fs : FS) (p : String) : Bool :=
  existsFile fs p || dirHas fs p

/-- Content of a file (empty if absent). -/
def fileContent (fs : FS) (p : String) : Bytes :=
  match fs.files.find? (fun e => e.1 == p) with
  | some e => e.2
  | none => []

/-- Python `os.path.getsize`. -/
def sizeF (fs : FS) (p : String) : Nat :=
  (fileContent fs p).length

/-- Python `open(p, "wb")` followed by writing `bs`: truncate/create then write. -/
def writeFile (fs : FS) (p : String) (bs : Bytes) : FS :=
  ⟨(p, bs) :: fs.files.filter (fun e => !(e.1 == p)), fs.dirs⟩

/-- Python `os.remove`. -/
def removeFile (fs : FS) (p : String) : FS :=
  ⟨fs.files.filter (fun e => !(e.1 == p)), fs.dirs⟩

/-- The guard `if os.path.exists(p): os.remove(p)` used in the download handler. -/
def removeIfExists (fs : FS) (p : String) : FS :=
  if existsFile fs p then removeFile fs p else fs

/-- Python `os.makedirs(d, exist_ok=True)`. -/
def mkdirp (fs : FS) (d : String) : FS :=
  ⟨fs.files, if dirHas fs d then fs.dirs else d :: fs.dirs⟩

/-- A path is the directory `d` itself or strictly below it. -/
def underDir (d p : String) : Bool :=
  (p == d) || (d ++ "/").data.isPrefixOf p.data

/-- Python `shutil.rmtree d`: remove the directory and everything under it. -/
def rmtree (fs : FS) (d : String) : FS :=
  ⟨fs.files.filter (fun e => !(underDir d e.1)),
   fs.dirs.filter (fun x => !(underDir d x))⟩

/-- Python `os.path.join` for the relative paths the service uses. -/
def joinP (a b : String) : String := a ++ "/" ++ b

/-- The process-wide base temp root (`TEMP_DIR = "temp"`). -/
def TEMP_DIR : String := "temp"

/-- Python `f"{n:03d}"`: decimal digits zero-padded to width 3. -/
def pad3 (n : Nat) : String :=
  let s := toString n
  if s.length ≥ 3 then s
  else String.mk (List.replicate (3 - s.length) '0') ++ s

/-- The page file / archive entry name `f"page_{k:03d}.jpg"`. -/
def pageName (k : Nat) : String :=
  "page_" ++ pad3 k ++ ".jpg"

/-- What the external fetch (`requests.get` + `iter_content`) did. -/
inductive FetchResult where
  /-- Either `requests.get` or `raise_for_status` threw (network error or
      non-success HTTP status); nothing was written by this call. -/
  | statusErr : FetchResult
  /-- The transfer threw midway: the listed chunks had been written. -/
  | netErr (part : List Bytes) : FetchResult
  /-- The transfer completed, with the given content type and body chunks. -/
  | ok (ctype : String) (chunks : List Bytes) : FetchResult
deriving DecidableEq

/-- The body the chunk loop writes: `for chunk in ...: if chunk: f.write(chunk)`. -/
def flattenChunks (chunks : List Bytes) : Bytes :=
  chunks.foldl (fun acc c => if c.isEmpty then acc else acc ++ c) []

/-- Writing the streamed chunks to `p` through a fresh `open(p, "wb")`. -/
def writeChunks (fs : FS) (p : String) (chunks : List Bytes) : FS :=
  writeFile fs p (flattenChunks chunks)

/-- Function `download_pdf_from_url(url, output_path)` from `src/main.py:23-61`:
returns `(new filesystem, success flag)`.  On any exception the partially
written file is removed if present; a completed but zero-byte download
returns `false` with the (empty) file left in place. -/
def download_pdf_from_url (fetch : FetchResult) (url output_path : String)
    (fs : FS) : FS × Bool :=
  match fetch with
  | .statusErr => (removeIfExists fs output_path, false)
  | .netErr part => (removeIfExists (writeChunks fs output_path part) output_path, false)
  | .ok _ctype chunks =>
      let fs2 := writeChunks fs output_path chunks
      if sizeF fs2 output_path == 0 then (fs2, false) else (fs2, true)

/-- An in-memory page image; `jpeg` is the byte string `image.save` emits
for it at the fixed JPEG settings (quality 85, optimize). -/
structure Image where
  jpeg : Bytes
deriving DecidableEq

/-- What the external rasterizer (`convert_from_path`) did. -/
inductive RasterResult where
  /-- The call `convert_from_path` threw. -/
  | exc (msg : String) : RasterResult
  /-- It produced these page images, in page order. -/
  | pages (imgs : List Image) : RasterResult
deriving DecidableEq

/-- The save loop of `convert_pdf_to_images`: for `i, image` in
`enumerate(images)`, write `output_dir/page_{i+1:03d}.jpg` and collect the
path. -/
def savePages (output_dir : String) : List Image → Nat → FS → FS × List String
  | [], _, fs => (fs, [])
  | img :: rest, i, fs =>
      let p := joinP output_dir (pageName (i + 1))
      let out := savePages output_dir rest (i + 1) (writeFile fs p img.jpeg)
      (out.1, p :: out.2)

/-- Function `convert_pdf_to_images(pdf_path, output_dir)` from `src/main.py:63-89`:
returns `(new filesystem, ordered list of produced image paths)`; an
exception from the rasterizer yields the empty list. -/
def convert_pdf_to_images (r : RasterResult) (pdf_path output_dir : String)
    (fs : FS) : FS × List String :=
  match r with
  | .exc _ => (fs, [])
  | .pages imgs => savePages output_dir imgs 0 fs

/-- The entry-adding loop of `create_zip_file` starting at index `i`:
for `i, image_path` in `enumerate(image_paths)`, if the path exists add an
entry named `page_{i+1:03d}.jpg`.  Returns the entry names in order. -/
def zipArcnamesAux (fs : FS) : Nat → List String → List String
  | _, [] => []
  | i, p :: rest =>
      if existsFile fs p then pageName (i + 1) :: zipArcnamesAux fs (i + 1) rest
      else zipArcnamesAux fs (i + 1) rest

/-- The archive entry names `create_zip_file` writes for `image_paths`. -/
def zipArcnames (fs : FS) (image_paths : List String) : List String :=
  zipArcnamesAux fs 0 image_paths

/-- What the external `zipfile` materialisation did. -/
inductive ZipOutcome where
  /-- The `zipfile` library threw while writing. -/
  | exc : ZipOutcome
  /-- The archive file was materialised with these bytes on disk. -/
  | written (bytes : Bytes) : ZipOutcome
deriving DecidableEq

/-- Function `create_zip_file(image_paths, zip_path)` from `src/main.py:91-114`:
returns `(new filesystem, success flag, entry names of the produced
archive)`.  The flag is `true` only when the archive file exists with
non-zero size after writing; an exception yields `false`. -/
def create_zip_file (zo : ZipOutcome) (image_paths : List String)
    (zip_path : String) (fs : FS) : FS × Bool × List String :=
  match zo with
  | .exc => (fs, false, [])
  | .written bytes =>
      let entries := zipArcnames fs image_paths
      let fs2 := writeFile fs zip_path bytes
      if existsFile fs2 zip_path && decide (0 < sizeF fs2 zip_path) then
        (fs2, true, entries)
      else
        (fs2, false, entries)

/-- Function `cleanup_directory(directory)` from `src/main.py:116-123`.  `rmOk`
says whether the external `shutil.rmtree` call succeeded; on failure the
exception is absorbed and the filesystem is left as it was. -/
def cleanup_directory (rmOk : Bool) (fs : FS) (directory : String) : FS :=
  if existsPath fs directory then
    if rmOk then rmtree fs directory else fs
  else fs

/-- An uploaded file part: its client-supplied filename and the bytes
`await pdf.read()` yields. -/
structure UploadFile where
  filename : String
  content : Bytes
deriving DecidableEq

/-- The two optional form fields of `POST /convert/`. -/
structure Request where
  pdf : Option UploadFile
  pdf_url : Option String
deriving DecidableEq

/-- Python truthiness of the optional upload (`UploadFile` objects are
always truthy, `None` is falsy). -/
def truthyPdf (o : Option UploadFile) : Bool :=
  o.isSome

/-- Python truthiness of the optional URL string (`None` and `""` falsy). -/
def truthyUrl (o : Option String) : Bool :=
  match o with
  | none => false
  | some s => !s.isEmpty

/-- ASCII lower-casing of one character (the fragment of `str.lower` the
`.pdf` suffix check exercises). -/
def charLower (c : Char) : Char :=
  if 65 ≤ c.toNat && c.toNat ≤ 90 then Char.ofNat (c.toNat + 32) else c

/-- The check `pdf.filename.lower().endswith('.pdf')`: the last four characters,
lower-cased, are `.pdf`. -/
def endsWithPdfCI (s : String) : Bool :=
  (s.data.map charLower).reverse.take 4 == ['f', 'd', 'p', '.']

/-- The external world of one request: the generated session id and the
behaviour of each external capability. -/
structure Env where
  session_id : String
  fetch : FetchResult
  raster : RasterResult
  zipOut : ZipOutcome
  rmOk : Bool
deriving DecidableEq

/-- The HTTP response of the handler. -/
inductive Resp where
  /-- A `FileResponse(path, media_type, filename)` (HTTP 200). -/
  | fileResponse (path mediaType filename : String) : Resp
  /-- An `HTTPException(status_code, detail)`. -/
  | error (status : Nat) (detail : String) : Resp
deriving DecidableEq

/-- The HTTP status of a response. -/
def Resp.status : Resp → Nat
  | .fileResponse _ _ _ => 200
  | .error s _ => s

/-- Result of the `try` block of the handler, with the observable actions
it performed: downloads issued, upload bytes written, PDFs rasterized. -/
structure BodyOut where
  fs : FS
  dl : List String
  writes : List (String × Bytes)
  rasterized : List String
  result : Except (Nat × String) String

/-- Lines 218-247 of `src/main.py`, shared by both source branches: verify
the resolved PDF, rasterize, build and verify the archive. -/
def afterResolve (env : Env) (temp_dir pdf_path : String) (fs : FS)
    (dl : List String) (wr : List (String × Bytes)) : BodyOut :=
  if !existsFile fs pdf_path || (sizeF fs pdf_path == 0) then
    ⟨fs, dl, wr, [], .error (400, "PDF invalido o vacio")⟩
  else
    let c := convert_pdf_to_images env.raster pdf_path temp_dir fs
    if c.2.isEmpty then
      ⟨c.1, dl, wr, [pdf_path], .error (500, "No se pudieron generar imagenes del PDF")⟩
    else
      let zip_path := joinP temp_dir "images.zip"
      let z := create_zip_file env.zipOut c.2 zip_path c.1
      if !z.2.1 then
        ⟨z.1, dl, wr, [pdf_path], .error (500, "No se pudo crear el archivo ZIP")⟩
      else if !existsFile z.1 zip_path || (sizeF z.1 zip_path == 0) then
        ⟨z.1, dl, wr, [pdf_path], .error (500, "El archivo ZIP esta vacio o corrupto")⟩
      else
        ⟨z.1, dl, wr, [pdf_path], .ok zip_path⟩

/-- The `try` block of the handler (`src/main.py:181-257`): resolve the
source (URL download or upload), then `afterResolve`.  The `none` case of
the upload branch is unreachable after validation; in Python it would be an
`AttributeError` caught by the catch-all handler (HTTP 500). -/
def tryBody (env : Env) (req : Request) (temp_dir : String) (fs : FS) : BodyOut :=
  if truthyUrl req.pdf_url then
    let url := req.pdf_url.getD ""
    let pdf_path := joinP temp_dir "input.pdf"
    let d := download_pdf_from_url env.fetch url pdf_path fs
    if d.2 then afterResolve env temp_dir pdf_path d.1 [url] []
    else ⟨d.1, [url], [], [], .error (400, "No se pudo descargar el PDF desde la URL")⟩
  else
    match req.pdf with
    | none => ⟨fs, [], [], [], .error (500, "Error interno del servidor")⟩
    | some up =>
        if !endsWithPdfCI up.filename then
          ⟨fs, [], [], [], .error (400, "El archivo debe ser PDF")⟩
        else if up.content.length == 0 then
          ⟨fs, [], [], [], .error (400, "El archivo PDF esta vacio")⟩
        else
          let pdf_path := joinP temp_dir "input.pdf"
          let fs2 := writeFile fs pdf_path up.content
          afterResolve env temp_dir pdf_path fs2 [] [(pdf_path, up.content)]

/-- The observable outcome of one `POST /convert/` request: the response,
the filesystem when the handler returns, the directories it created
(`made`), the directories whose cleanup it invoked or scheduled
(`attempted`), the background cleanups scheduled to run after the response
body is transmitted (`scheduled`), and the action traces of the body. -/
structure HandlerOut where
  resp : Resp
  fs : FS
  made : List String
  attempted : List String
  scheduled : List String
  dl : List String
  writes : List (String × Bytes)
  rasterized : List String

/-- The `POST /convert/` handler `convert_pdf` (`src/main.py:147-271`):
validation, workspace creation, the `try` body, and the `except` branches
(both of which call `cleanup_directory` synchronously before re-raising);
on success the cleanup is scheduled as a background task. -/
def convert_pdf (env : Env) (req : Request) (fs : FS) : HandlerOut :=
  if !truthyPdf req.pdf && !truthyUrl req.pdf_url then
    ⟨.error 422 "Debe proporcionar pdf (archivo) o pdf_url (URL)",
     fs, [], [], [], [], [], []⟩
  else if truthyPdf req.pdf && truthyUrl req.pdf_url then
    ⟨.error 422 "Proporcione solo pdf o pdf_url, no ambos",
     fs, [], [], [], [], [], []⟩
  else
    let temp_dir := joinP TEMP_DIR env.session_id
    let fs1 := mkdirp fs temp_dir
    let b := tryBody env req temp_dir fs1
    match b.result with
    | .ok zip_path =>
        ⟨.fileResponse zip_path "application/zip" "converted_images.zip",
         b.fs, [temp_dir], [temp_dir], [temp_dir], b.dl, b.writes, b.rasterized⟩
    | .error sd =>
        ⟨.error sd.1 sd.2, cleanup_directory env.rmOk b.fs temp_dir,
         [temp_dir], [temp_dir], [], b.dl, b.writes, b.rasterized⟩

/-- Running the scheduled background cleanups after the response body has
been transmitted. -/
def afterTransmit (env : Env) (out : HandlerOut) : FS :=
  out.scheduled.foldl (fun s d => cleanup_directory env.rmOk s d) out.fs

/-- The base filename of a path (the part after the last `/`). -/
def basename (p : String) : String :=
  String.mk ((p.data.reverse.takeWhile (fun c => !(c == '/'))).reverse)

/-- The number of pages the rasterizer produced. -/
def numPages : RasterResult → Nat
  | .exc _ => 0
  | .pages imgs => imgs.length

/-- The entry names of the archive built by rasterizing and then zipping
(the `convert_pdf_to_images` / `create_zip_file` pipeline). -/
def pipelineEntries (r : RasterResult) (zo : ZipOutcome)
    (pdf_path output_dir zip_path : String) (fs : FS) : List String :=
  let c := convert_pdf_to_images r pdf_path output_dir fs
  (create_zip_file zo c.2 zip_path c.1).2.2

/-! ## Basic filesystem lemmas -/

theorem dirs_writeFile (fs : FS) (p : String) (bs : Bytes) :
    (writeFile fs p bs).dirs = fs.dirs := rfl

theorem dirs_removeFile (fs : FS) (p : String) :
    (removeFile fs p).dirs = fs.dirs := rfl

theorem dirs_removeIfExists (fs : FS) (p : String) :
    (removeIfExists fs p).dirs = fs.dirs := by
  unfold removeIfExists; split <;> rfl

theorem fileContent_writeFile (fs : FS) (p : String) (bs : Bytes) :
    fileContent (writeFile fs p bs) p = bs := by
  simp [fileContent, writeFile]

theorem sizeF_writeFile (fs : FS) (p : String) (bs : Bytes) :
    sizeF (writeFile fs p bs) p = bs.length := by
  simp [sizeF, fileContent_writeFile]

theorem existsFile_writeFile_self (fs : FS) (p : String) (bs : Bytes) :
    existsFile (writeFile fs p bs) p = true := by
  simp [existsFile, writeFile]

theorem existsFile_writeFile_mono (fs : FS) (p q : String) (bs : Bytes)
    (h : existsFile fs p = true) : existsFile (writeFile fs q bs) p = true := by
  simp only [existsFile, writeFile, List.any_eq_true] at h ⊢
  obtain ⟨e, he, hp⟩ := h
  by_cases hq : e.1 = q
  · refine ⟨(q, bs), List.mem_cons_self _ _, ?_⟩
    simp only [beq_iff_eq] at hp ⊢
    rw [← hq, hp]
  · exact ⟨e, List.mem_cons_of_mem _ (List.mem_filter.mpr ⟨he, by simp [hq]⟩), hp⟩

theorem existsFile_removeFile_self (fs : FS) (p : String) :
    existsFile (removeFile fs p) p = false := by
  rw [Bool.eq_false_iff]
  simp only [existsFile, removeFile, ne_eq, List.any_eq_true, List.mem_filter]
  rintro ⟨e, ⟨_, hne⟩, hp⟩
  simp only [beq_iff_eq] at hp
  simp [hp] at hne

theorem existsFile_removeIfExists_self (fs : FS) (p : String) :
    existsFile (removeIfExists fs p) p = false := by
  unfold removeIfExists
  split
  · exact existsFile_removeFile_self fs p
  · rename_i h; exact Bool.not_eq_true _ ▸ (by simpa using h)

theorem dirHas_mkdirp_self (fs : FS) (d : String) :
    dirHas (mkdirp fs d) d = true := by
  unfold mkdirp dirHas
  split
  · rename_i h; exact h
  · simp

theorem existsPath_rmtree (fs : FS) (d p : String) (h : underDir d p = true) :
    existsPath (rmtree fs d) p = false := by
  simp only [existsPath, rmtree, existsFile, dirHas, Bool.or_eq_false_iff]
  constructor
  · rw [Bool.eq_false_iff]
    simp only [ne_eq, List.any_eq_true, List.mem_filter]
    rintro ⟨e, ⟨_, hne⟩, hp⟩
    simp only [beq_iff_eq] at hp
    rw [hp] at hne
    simp [h] at hne
  · rw [Bool.eq_false_iff]
    simp only [ne_eq, List.any_eq_true, List.mem_filter]
    rintro ⟨x, ⟨_, hne⟩, hp⟩
    simp only [beq_iff_eq] at hp
    rw [hp] at hne
    simp [h] at hne

/-! ## Lemmas about the page-save loop and the archive-entry loop -/

theorem savePages_snd (d : String) (imgs : List Image) :
    ∀ (i : Nat) (fs : FS), (savePages d imgs i fs).2
      = (List.range imgs.length).map (fun j => joinP d (pageName (i + j + 1))) := by
  induction imgs with
  | nil => intro i fs; simp [savePages]
  | cons img rest ih =>
      intro i fs
      simp only [savePages, ih, List.length_cons, List.range_succ_eq_map,
        List.map_cons, List.map_map]
      refine congrArg₂ List.cons rfl ?_
      apply List.map_congr_left
      intro a _
      have h : i + 1 + a + 1 = i + (a + 1) + 1 := by omega
      simp [Function.comp, h]

theorem savePages_dirs (d : String) (imgs : List Image) :
    ∀ (i : Nat) (fs : FS), (savePages d imgs i fs).1.dirs = fs.dirs := by
  induction imgs with
  | nil => intro i fs; rfl
  | cons img rest ih =>
      intro i fs
      simp only [savePages]
      rw [ih, dirs_writeFile]

theorem savePages_preserves (d : String) (imgs : List Image) :
    ∀ (i : Nat) (fs : FS) (p : String), existsFile fs p = true →
      existsFile (savePages d imgs i fs).1 p = true := by
  induction imgs with
  | nil => intro i fs p h; simpa [savePages] using h
  | cons img rest ih =>
      intro i fs p h
      simp only [savePages]
      exact ih (i + 1) _ p (existsFile_writeFile_mono _ _ _ _ h)

theorem savePages_mem_exists (d : String) (imgs : List Image) :
    ∀ (i : Nat) (fs : FS) (p : String), p ∈ (savePages d imgs i fs).2 →
      existsFile (savePages d imgs i fs).1 p = true := by
  induction imgs with
  | nil => intro i fs p h; simp [savePages] at h
  | cons img rest ih =>
      intro i fs p h
      simp only [savePages, List.mem_cons] at h
      simp only [savePages]
      rcases h with h | h
      · subst h
        exact savePages_preserves d rest (i + 1) _ _ (existsFile_writeFile_self _ _ _)
      · exact ih (i + 1) _ p h

theorem zipArcnamesAux_enumFrom (fs : FS) (ps : List String) :
    ∀ i, zipArcnamesAux fs i ps
      = ((List.enumFrom i ps).filter (fun e => existsFile fs e.2)).map
          (fun e => pageName (e.1 + 1)) := by
  induction ps with
  | nil => intro i; simp [zipArcnamesAux]
  | cons p rest ih =>
      intro i
      simp only [zipArcnamesAux, List.enumFrom, List.filter]
      by_cases h : existsFile fs p = true
      · simp [h, ih]
      · simp only [Bool.not_eq_true] at h
        simp [h, ih]

theorem zipArcnamesAux_all (fs : FS) (ps : List String)
    (h : ∀ p ∈ ps, existsFile fs p = true) :
    ∀ i, zipArcnamesAux fs i ps
      = (List.range ps.length).map (fun j => pageName (i + j + 1)) := by
  induction ps with
  | nil => intro i; simp [zipArcnamesAux]
  | cons p rest ih =>
      intro i
      have hp : existsFile fs p = true := h p (List.mem_cons_self _ _)
      simp only [zipArcnamesAux, hp, if_true, List.length_cons,
        List.range_succ_eq_map, List.map_cons, List.map_map]
      refine congrArg₂ List.cons rfl ?_
      rw [ih (fun q hq => h q (List.mem_cons_of_mem _ hq))]
      apply List.map_congr_left
      intro a _
      have hh : i + 1 + a + 1 = i + (a + 1) + 1 := by omega
      simp [Function.comp, hh]

/-! ## Claim theorems: the rasterizer adapter, the downloader, the archive
builder and the cleanup helper -/

/-- C1: `convert_pdf_to_images` returns the ordered, contiguous list
`output_dir/page_001.jpg … output_dir/page_NNN.jpg` (sequence numbers
starting at 1 in page order) when rasterization yields `N` pages, and the
empty list — not a propagated error — when rasterization throws or yields
zero pages. -/
theorem convert_pdf_to_images_spec (pdf_path output_dir : String) (fs : FS)
    (imgs : List Image) (msg : String) :
    (convert_pdf_to_images (.pages imgs) pdf_path output_dir fs).2
      = (List.range imgs.length).map (fun j => joinP output_dir (pageName (j + 1)))
    ∧ (convert_pdf_to_images (.exc msg) pdf_path output_dir fs).2 = []
    ∧ (convert_pdf_to_images (.pages []) pdf_path output_dir fs).2 = [] := by
  refine ⟨?_, rfl, rfl⟩
  rw [convert_pdf_to_images, savePages_snd]
  apply List.map_congr_left
  intro a _
  simp

/-- C4 (amended): `download_pdf_from_url` returns `false` (rather than
crashing) on a non-success status or network error — removing the partial
file in those cases — and returns `false` on a completed zero-byte
download, but in that case the empty file is left at `output_path` (it is
written and not removed). -/
theorem download_pdf_from_url_spec (url out : String) (fs : FS)
    (part : List Bytes) (ctype : String) (chunks : List Bytes) :
    ((download_pdf_from_url .statusErr url out fs).2 = false
      ∧ existsFile (download_pdf_from_url .statusErr url out fs).1 out = false)
    ∧ ((download_pdf_from_url (.netErr part) url out fs).2 = false
      ∧ existsFile (download_pdf_from_url (.netErr part) url out fs).1 out = false)
    ∧ ((download_pdf_from_url (.ok ctype chunks) url out fs).2
          = !(flattenChunks chunks).isEmpty
      ∧ existsFile (download_pdf_from_url (.ok ctype chunks) url out fs).1 out = true) := by
  refine ⟨⟨rfl, existsFile_removeIfExists_self _ _⟩,
          ⟨rfl, existsFile_removeIfExists_self _ _⟩, ?_, ?_⟩
  · rw [download_pdf_from_url]
    simp only [writeChunks, sizeF_writeFile]
    cases h : flattenChunks chunks with
    | nil => simp
    | cons b bs => simp
  · rw [download_pdf_from_url]
    split <;> exact existsFile_writeFile_self _ _ _

/-- C4 counterexample: a download that completes with zero bytes returns
`false`, yet the (empty) file at `output_path` still exists on disk —
the claim that the partially-written file is removed in all failure cases
is false. -/
theorem download_empty_cex :
    (download_pdf_from_url (.ok "application/pdf" []) "http://h/x.pdf"
        "temp/s/input.pdf" ⟨[], []⟩).2 = false
    ∧ existsFile (download_pdf_from_url (.ok "application/pdf" []) "http://h/x.pdf"
        "temp/s/input.pdf" ⟨[], []⟩).1 "temp/s/input.pdf" = true := by
  exact ⟨by decide, by decide⟩

/-- C4 witness: exercising `download_pdf_from_url_spec` at concrete inputs. -/
theorem download_pdf_from_url_spec_witness :
    (download_pdf_from_url .statusErr "u" "p" ⟨[("p", [1])], []⟩).2 = false
    ∧ existsFile (download_pdf_from_url .statusErr "u" "p" ⟨[("p", [1])], []⟩).1 "p" = false :=
  (download_pdf_from_url_spec "u" "p" ⟨[("p", [1])], []⟩ [] "c" []).1

/-- C2 counterexample: `create_zip_file` names entries by the path's
position in the input list, not by its base filename: for the existing
file `d/foo.jpg` the produced entry is `page_001.jpg`, which differs from
the basename `foo.jpg`. -/
theorem create_zip_basename_cex :
    (create_zip_file (.written [9]) ["d/foo.jpg"] "d/out.zip"
        ⟨[("d/foo.jpg", [1, 2])], []⟩).2.2 = ["page_001.jpg"]
    ∧ existsFile ⟨[("d/foo.jpg", [1, 2])], []⟩ "d/foo.jpg" = true
    ∧ basename "d/foo.jpg" = "foo.jpg"
    ∧ ¬ ("page_001.jpg" = "foo.jpg") := by
  exact ⟨by decide, by decide, by decide, by decide⟩

/-- C2 (amended): `create_zip_file` adds, for each listed path that exists
on disk, one entry named `page_{k:03d}.jpg` where `k` is the path's
1-based position in the input list (this coincides with the basename for
the paths the pipeline produces), preserving input order and skipping
missing paths without failing; and it returns `false` without throwing
whenever the produced archive file is missing or has zero size. -/
theorem create_zip_file_spec (fs : FS) (ps : List String) (zp : String)
    (bytes : Bytes) :
    (create_zip_file (.written bytes) ps zp fs).2.2
        = ((List.enumFrom 0 ps).filter (fun e => existsFile fs e.2)).map
            (fun e => pageName (e.1 + 1))
    ∧ ((create_zip_file (.written bytes) ps zp fs).2.1 = !bytes.isEmpty)
    ∧ (∀ zo : ZipOutcome,
        (existsFile (create_zip_file zo ps zp fs).1 zp = false
          ∨ sizeF (create_zip_file zo ps zp fs).1 zp = 0) →
        (create_zip_file zo ps zp fs).2.1 = false) := by
  refine ⟨?_, ?_, ?_⟩
  · rw [create_zip_file]
    split <;> simp [zipArcnames, zipArcnamesAux_enumFrom]
  · rw [create_zip_file]
    simp only [existsFile_writeFile_self, sizeF_writeFile, Bool.true_and]
    cases bytes with
    | nil => simp
    | cons b bs => simp
  · intro zo h
    cases zo with
    | exc => rfl
    | written b =>
        rcases h with h | h
        · exfalso
          rw [create_zip_file] at h
          split at h <;> simp [existsFile_writeFile_self] at h
        · have hlen : b.length = 0 := by
            rw [create_zip_file] at h
            split at h <;> simpa [sizeF_writeFile] using h
          rw [create_zip_file]
          split <;> rename_i hs
          · exfalso
            rw [Bool.and_eq_true] at hs
            have h2 := of_decide_eq_true hs.2
            rw [sizeF_writeFile] at h2
            omega
          · rfl

/-- C2 witness: a zero-size materialised archive makes `create_zip_file`
return `false`, via `create_zip_file_spec`. -/
theorem create_zip_file_spec_witness :
    (existsFile (create_zip_file (.written []) ["a"] "z" ⟨[], []⟩).1 "z" = false
      ∨ sizeF (create_zip_file (.written []) ["a"] "z" ⟨[], []⟩).1 "z" = 0)
    ∧ (create_zip_file (.written []) ["a"] "z" ⟨[], []⟩).2.1 = false :=
  ⟨Or.inr (by decide),
   (create_zip_file_spec ⟨[], []⟩ ["a"] "z" []).2.2 (.written []) (Or.inr (by decide))⟩

/-- C7: `cleanup_directory` never raises (it is a total function into
filesystem states): it is a no-op when the path is already gone, it
recursively removes the directory and everything under it when it exists
and the removal succeeds, and a removal failure is absorbed, leaving the
filesystem as it was. -/
theorem cleanup_directory_spec (rmOk : Bool) (fs : FS) (d : String) :
    (existsPath fs d = false → cleanup_directory rmOk fs d = fs)
    ∧ (rmOk = false → cleanup_directory rmOk fs d = fs)
    ∧ (rmOk = true → existsPath fs d = true →
        ∀ p, underDir d p = true →
          existsPath (cleanup_directory rmOk fs d) p = false) := by
  refine ⟨?_, ?_, ?_⟩
  · intro h
    rw [cleanup_directory, h]
    simp
  · intro h
    subst h
    rw [cleanup_directory]
    split <;> rfl
  · intro hok hex p hp
    subst hok
    rw [cleanup_directory, hex]
    simpa using existsPath_rmtree fs d p hp

/-- C7 witness: exercising `cleanup_directory_spec` at a concrete state. -/
theorem cleanup_directory_spec_witness :
    existsPath (⟨[("temp/s/input.pdf", [1])], ["temp/s"]⟩ : FS) "temp/s" = true
    ∧ underDir "temp/s" "temp/s/input.pdf" = true
    ∧ existsPath (cleanup_directory true ⟨[("temp/s/input.pdf", [1])], ["temp/s"]⟩
        "temp/s") "temp/s/input.pdf" = false :=
  ⟨by decide, by decide,
   (cleanup_directory_spec true ⟨[("temp/s/input.pdf", [1])], ["temp/s"]⟩ "temp/s").2.2
     rfl (by decide) "temp/s/input.pdf" (by decide)⟩

/-! ## The rasterize-then-archive pipeline (C8) -/

theorem pipelineEntries_eq (r : RasterResult) (b : Bytes)
    (pp od zp : String) (fs : FS) :
    pipelineEntries r (.written b) pp od zp fs
      = (List.range (numPages r)).map (fun j => pageName (j + 1)) := by
  cases r with
  | exc m =>
      rw [pipelineEntries, convert_pdf_to_images, create_zip_file]
      split <;> simp [zipArcnames, zipArcnamesAux, numPages]
  | pages imgs =>
      rw [pipelineEntries, convert_pdf_to_images, create_zip_file]
      have hall : ∀ p ∈ (savePages od imgs 0 fs).2,
          existsFile (savePages od imgs 0 fs).1 p = true :=
        fun p hp => savePages_mem_exists od imgs 0 fs p hp
      have hlen : (savePages od imgs 0 fs).2.length = imgs.length := by
        rw [savePages_snd]; simp
      have he : zipArcnames (savePages od imgs 0 fs).1 (savePages od imgs 0 fs).2
          = (List.range imgs.length).map (fun j => pageName (j + 1)) := by
        rw [zipArcnames, zipArcnamesAux_all _ _ hall 0, hlen]
        apply List.map_congr_left
        intro a _
        simp
      split <;> simpa [numPages] using he

/-- C8: the entry-name sequence of the archive the pipeline produces is a
deterministic function of the page count alone, so two conversions of the
same PDF (same page count, arbitrary JPEG bytes, directories and starting
filesystems) yield archives with identical entry names in identical
order, namely `page_001.jpg … page_NNN.jpg`. -/
theorem pipeline_entries_deterministic (r1 r2 : RasterResult) (b1 b2 : Bytes)
    (pp1 pp2 od1 od2 zp1 zp2 : String) (fsa fsb : FS)
    (h : numPages r1 = numPages r2) :
    pipelineEntries r1 (.written b1) pp1 od1 zp1 fsa
      = pipelineEntries r2 (.written b2) pp2 od2 zp2 fsb
    ∧ pipelineEntries r1 (.written b1) pp1 od1 zp1 fsa
      = (List.range (numPages r1)).map (fun j => pageName (j + 1)) := by
  refine ⟨?_, pipelineEntries_eq r1 b1 pp1 od1 zp1 fsa⟩
  rw [pipelineEntries_eq, pipelineEntries_eq, h]

/-- C8 witness: two pipeline runs over a one-page rasterization, with
different JPEG bytes, different directories and different archive bytes,
produce the same entry list `[page_001.jpg]`. -/
theorem pipeline_entries_deterministic_witness :
    pipelineEntries (.pages [⟨[1]⟩]) (.written [7]) "a/in.pdf" "a" "a/z.zip" ⟨[], []⟩
      = pipelineEntries (.pages [⟨[2, 3]⟩]) (.written [8, 9]) "b/in.pdf" "b" "b/z.zip"
          ⟨[("x", [0])], ["b"]⟩
    ∧ pipelineEntries (.pages [⟨[1]⟩]) (.written [7]) "a/in.pdf" "a" "a/z.zip" ⟨[], []⟩
      = (List.range (numPages (.pages [⟨[1]⟩]))).map (fun j => pageName (j + 1)) :=
  pipeline_entries_deterministic (.pages [⟨[1]⟩]) (.pages [⟨[2, 3]⟩]) [7] [8, 9]
    "a/in.pdf" "b/in.pdf" "a" "b" "a/z.zip" "b/z.zip" ⟨[], []⟩ ⟨[("x", [0])], ["b"]⟩
    (by decide)

/-! ## Directory preservation through the request body -/

theorem dirs_download (f : FetchResult) (u o : String) (fs : FS) :
    (download_pdf_from_url f u o fs).1.dirs = fs.dirs := by
  cases f with
  | statusErr => simp [download_pdf_from_url, dirs_removeIfExists]
  | netErr part =>
      rw [download_pdf_from_url]
      rw [dirs_removeIfExists]
      rfl
  | ok ct chunks =>
      rw [download_pdf_from_url]
      split <;> rfl

theorem dirs_convert (r : RasterResult) (pp od : String) (fs : FS) :
    (convert_pdf_to_images r pp od fs).1.dirs = fs.dirs := by
  cases r with
  | exc m => rfl
  | pages imgs => exact savePages_dirs od imgs 0 fs

theorem dirs_create (zo : ZipOutcome) (ps : List String) (zp : String) (fs : FS) :
    (create_zip_file zo ps zp fs).1.dirs = fs.dirs := by
  cases zo with
  | exc => rfl
  | written b =>
      rw [create_zip_file]
      split <;> rfl

theorem dirs_afterResolve (env : Env) (td pp : String) (fs : FS)
    (dl : List String) (wr : List (String × Bytes)) :
    (afterResolve env td pp fs dl wr).fs.dirs = fs.dirs := by
  simp only [afterResolve]
  split
  · rfl
  · split
    · exact dirs_convert _ _ _ _
    · split
      · rw [dirs_create, dirs_convert]
      · split
        · rw [dirs_create, dirs_convert]
        · rw [dirs_create, dirs_convert]

theorem dirs_tryBody (env : Env) (req : Request) (td : String) (fs : FS) :
    (tryBody env req td fs).fs.dirs = fs.dirs := by
  simp only [tryBody]
  split
  · split
    · rw [dirs_afterResolve, dirs_download]
    · exact dirs_download _ _ _ _
  · split
    · rfl
    · split
      · rfl
      · split
        · rfl
        · rw [dirs_afterResolve]
          rfl

theorem dirHas_congr {a b : FS} (h : a.dirs = b.dirs) (d : String) :
    dirHas a d = dirHas b d := by
  unfold dirHas
  rw [h]

theorem cleanup_removes_under (rmOk : Bool) (bfs : FS) (td p : String)
    (hok : rmOk = true) (hdir : dirHas bfs td = true) (hp : underDir td p = true) :
    existsPath (cleanup_directory rmOk bfs td) p = false := by
  subst hok
  have hex : existsPath bfs td = true := by
    simp [existsPath, hdir]
  simp only [cleanup_directory, hex, if_true]
  exact existsPath_rmtree bfs td p hp

/-- C3: for every request, cleanup is attempted for exactly the
directories the handler created (`attempted = made`, on every exit path:
success via the scheduled background task, and every error path
synchronously); consequently, once the scheduled cleanups have run after
transmission, if `rmtree` succeeds nothing remains on disk at or below the
created workspace directory. -/
theorem convert_pdf_cleanup (env : Env) (req : Request) (fs : FS) :
    (convert_pdf env req fs).attempted = (convert_pdf env req fs).made
    ∧ (env.rmOk = true →
        ∀ d p, d ∈ (convert_pdf env req fs).made → underDir d p = true →
          existsPath (afterTransmit env (convert_pdf env req fs)) p = false) := by
  simp only [convert_pdf]
  split
  · refine ⟨rfl, ?_⟩
    intro _ d p hd _
    simp at hd
  · split
    · refine ⟨rfl, ?_⟩
      intro _ d p hd _
      simp at hd
    · have hdir : dirHas (tryBody env req (joinP TEMP_DIR env.session_id)
          (mkdirp fs (joinP TEMP_DIR env.session_id))).fs
          (joinP TEMP_DIR env.session_id) = true := by
        rw [dirHas_congr (dirs_tryBody env req _ _)]
        exact dirHas_mkdirp_self fs _
      cases hres : (tryBody env req (joinP TEMP_DIR env.session_id)
          (mkdirp fs (joinP TEMP_DIR env.session_id))).result with
      | ok zp =>
          simp only [hres]
          refine ⟨by trivial, ?_⟩
          intro hok d p hd hp
          simp only [List.mem_singleton] at hd
          subst hd
          simp only [afterTransmit, List.foldl_cons, List.foldl_nil]
          exact cleanup_removes_under env.rmOk _ _ p hok hdir hp
      | error sd =>
          simp only [hres]
          refine ⟨by trivial, ?_⟩
          intro hok d p hd hp
          simp only [List.mem_singleton] at hd
          subst hd
          simp only [afterTransmit, List.foldl_nil]
          exact cleanup_removes_under env.rmOk _ _ p hok hdir hp

/-- C3 witness: a failed URL download on a concrete request — the
workspace `temp/s1` is created, cleanup is attempted for it, and after the
request nothing under `temp/s1` exists. -/
theorem convert_pdf_cleanup_witness :
    ((convert_pdf ⟨"s1", .statusErr, .exc "x", .exc, true⟩
        ⟨none, some "http://h/x.pdf"⟩ ⟨[], ["temp"]⟩).attempted
      = (convert_pdf ⟨"s1", .statusErr, .exc "x", .exc, true⟩
        ⟨none, some "http://h/x.pdf"⟩ ⟨[], ["temp"]⟩).made)
    ∧ existsPath (afterTransmit ⟨"s1", .statusErr, .exc "x", .exc, true⟩
        (convert_pdf ⟨"s1", .statusErr, .exc "x", .exc, true⟩
          ⟨none, some "http://h/x.pdf"⟩ ⟨[], ["temp"]⟩)) "temp/s1/input.pdf" = false :=
  ⟨(convert_pdf_cleanup ⟨"s1", .statusErr, .exc "x", .exc, true⟩
      ⟨none, some "http://h/x.pdf"⟩ ⟨[], ["temp"]⟩).1,
   (convert_pdf_cleanup ⟨"s1", .statusErr, .exc "x", .exc, true⟩
      ⟨none, some "http://h/x.pdf"⟩ ⟨[], ["temp"]⟩).2 rfl "temp/s1" "temp/s1/input.pdf"
      (by decide) (by decide)⟩

/-! ## Validation behaviour of the handler (C5, C9, C10) -/

/-- C9: a request with no `pdf` and `pdf_url` present but equal to the
empty string falls into the "neither source" branch (the presence checks
test truthiness), is rejected with 422, and triggers no download, no
workspace creation and no filesystem change. -/
theorem empty_url_rejected (env : Env) (fs : FS) :
    (convert_pdf env ⟨none, some ""⟩ fs).resp
      = .error 422 "Debe proporcionar pdf (archivo) o pdf_url (URL)"
    ∧ (convert_pdf env ⟨none, some ""⟩ fs).dl = []
    ∧ (convert_pdf env ⟨none, some ""⟩ fs).made = []
    ∧ (convert_pdf env ⟨none, some ""⟩ fs).fs = fs :=
  ⟨rfl, rfl, rfl, rfl⟩

/-- C5 counterexample: a request with BOTH fields set — `pdf` a valid
upload and `pdf_url` the empty string — is not rejected with 422: the
truthiness check lets it through, a workspace is created and the upload is
processed (here ending in a 500 because rasterization fails). -/
theorem both_set_empty_url_cex :
    ((⟨some ⟨"a.pdf", [1]⟩, some ""⟩ : Request).pdf.isSome = true)
    ∧ ((⟨some ⟨"a.pdf", [1]⟩, some ""⟩ : Request).pdf_url.isSome = true)
    ∧ ¬ ((convert_pdf ⟨"s1", .statusErr, .exc "boom", .exc, true⟩
        ⟨some ⟨"a.pdf", [1]⟩, some ""⟩ ⟨[], ["temp"]⟩).resp.status = 422)
    ∧ (convert_pdf ⟨"s1", .statusErr, .exc "boom", .exc, true⟩
        ⟨some ⟨"a.pdf", [1]⟩, some ""⟩ ⟨[], ["temp"]⟩).resp.status = 500
    ∧ (convert_pdf ⟨"s1", .statusErr, .exc "boom", .exc, true⟩
        ⟨some ⟨"a.pdf", [1]⟩, some ""⟩ ⟨[], ["temp"]⟩).made = ["temp/s1"] :=
  ⟨by decide, by decide, by decide, by decide, by decide⟩

/-- C5 (amended): a request with neither source truthy (absent `pdf` and
absent-or-empty `pdf_url`) gets 422 with a human-readable detail, and a
request with both sources truthy (`pdf` present and `pdf_url` a non-empty
string) gets 422 with a human-readable detail; in both cases no workspace
is created and the filesystem is untouched.  (When `pdf_url` is set to the
empty string alongside `pdf`, the request instead proceeds as
upload-only.) -/
theorem convert_pdf_validation (env : Env) (fs : FS) (req : Request) :
    ((truthyPdf req.pdf = false ∧ truthyUrl req.pdf_url = false) →
        (convert_pdf env req fs).resp
            = .error 422 "Debe proporcionar pdf (archivo) o pdf_url (URL)"
        ∧ (convert_pdf env req fs).fs = fs
        ∧ (convert_pdf env req fs).made = [])
    ∧ ((truthyPdf req.pdf = true ∧ truthyUrl req.pdf_url = true) →
        (convert_pdf env req fs).resp
            = .error 422 "Proporcione solo pdf o pdf_url, no ambos"
        ∧ (convert_pdf env req fs).fs = fs
        ∧ (convert_pdf env req fs).made = []) := by
  constructor
  · rintro ⟨h1, h2⟩
    simp only [convert_pdf, h1, h2, Bool.not_false, Bool.and_self, if_true]
    refine ⟨by trivial, by trivial, by trivial⟩
  · rintro ⟨h1, h2⟩
    simp only [convert_pdf, h1, h2, Bool.not_true, Bool.and_self, Bool.and_true,
      Bool.false_eq_true, if_false, if_true]
    refine ⟨by trivial, by trivial, by trivial⟩

/-- C5 witness: the two 422 rejections at concrete requests, via
`convert_pdf_validation`. -/
theorem convert_pdf_validation_witness :
    ((convert_pdf ⟨"s1", .statusErr, .exc "x", .exc, true⟩ ⟨none, none⟩
        ⟨[], ["temp"]⟩).resp
      = .error 422 "Debe proporcionar pdf (archivo) o pdf_url (URL)")
    ∧ ((convert_pdf ⟨"s1", .statusErr, .exc "x", .exc, true⟩
        ⟨some ⟨"a.pdf", [1]⟩, some "http://u"⟩ ⟨[], ["temp"]⟩).resp
      = .error 422 "Proporcione solo pdf o pdf_url, no ambos") :=
  ⟨((convert_pdf_validation ⟨"s1", .statusErr, .exc "x", .exc, true⟩
      ⟨[], ["temp"]⟩ ⟨none, none⟩).1 ⟨by decide, by decide⟩).1,
   ((convert_pdf_validation ⟨"s1", .statusErr, .exc "x", .exc, true⟩
      ⟨[], ["temp"]⟩ ⟨some ⟨"a.pdf", [1]⟩, some "http://u"⟩).2 ⟨by decide, by decide⟩).1⟩

theorem afterResolve_error_status (env : Env) (td pp : String) (fs : FS)
    (dl : List String) (wr : List (String × Bytes)) (s : Nat) (d : String)
    (h : (afterResolve env td pp fs dl wr).result = .error (s, d)) :
    s = 400 ∨ s = 500 := by
  simp only [afterResolve] at h
  split at h
  · simp only [Except.error.injEq, Prod.mk.injEq] at h
    exact Or.inl h.1.symm
  · split at h
    · simp only [Except.error.injEq, Prod.mk.injEq] at h
      exact Or.inr h.1.symm
    · split at h
      · simp only [Except.error.injEq, Prod.mk.injEq] at h
        exact Or.inr h.1.symm
      · split at h
        · simp only [Except.error.injEq, Prod.mk.injEq] at h
          exact Or.inr h.1.symm
        · simp at h

theorem tryBody_error_status (env : Env) (req : Request) (td : String) (fs : FS)
    (s : Nat) (d : String)
    (h : (tryBody env req td fs).result = .error (s, d)) :
    s = 400 ∨ s = 500 := by
  simp only [tryBody] at h
  split at h
  · split at h
    · exact afterResolve_error_status _ _ _ _ _ _ _ _ h
    · simp only [Except.error.injEq, Prod.mk.injEq] at h
      exact Or.inl h.1.symm
  · split at h
    · simp only [Except.error.injEq, Prod.mk.injEq] at h
      exact Or.inr h.1.symm
    · split at h
      · simp only [Except.error.injEq, Prod.mk.injEq] at h
        exact Or.inl h.1.symm
      · split at h
        · simp only [Except.error.injEq, Prod.mk.injEq] at h
          exact Or.inl h.1.symm
        · exact afterResolve_error_status _ _ _ _ _ _ _ _ h

/-- C10: a request rejected with status 422 leaves the filesystem exactly
as it was: no workspace directory is created, no file is written and no
download is attempted — the workspace is allocated only after both
mutual-exclusion checks pass. -/
theorem reject_422_frame (env : Env) (req : Request) (fs : FS)
    (h : (convert_pdf env req fs).resp.status = 422) :
    (convert_pdf env req fs).fs = fs
    ∧ (convert_pdf env req fs).made = []
    ∧ (convert_pdf env req fs).writes = []
    ∧ (convert_pdf env req fs).dl = [] := by
  by_cases h1 : (!truthyPdf req.pdf && !truthyUrl req.pdf_url) = true
  · simp only [convert_pdf, h1, if_true]
    refine ⟨by trivial, by trivial, by trivial, by trivial⟩
  · by_cases h2 : (truthyPdf req.pdf && truthyUrl req.pdf_url) = true
    · simp only [convert_pdf, h1, h2, if_true, if_false]
      refine ⟨by trivial, by trivial, by trivial, by trivial⟩
    · exfalso
      simp only [convert_pdf, h1, h2, if_false] at h
      cases hres : (tryBody env req (joinP TEMP_DIR env.session_id)
          (mkdirp fs (joinP TEMP_DIR env.session_id))).result with
      | ok zp =>
          rw [hres] at h
          simp [Resp.status] at h
      | error sd =>
          obtain ⟨s, dd⟩ := sd
          rw [hres] at h
          simp [Resp.status] at h
          rcases tryBody_error_status env req _ _ s dd hres with h4 | h4 <;> omega

/-- C10 witness: a concrete 422 rejection leaves the filesystem unchanged,
via `reject_422_frame`. -/
theorem reject_422_frame_witness :
    (convert_pdf ⟨"s1", .statusErr, .exc "x", .exc, true⟩ ⟨none, none⟩
        ⟨[("keep.txt", [1])], ["temp"]⟩).fs = ⟨[("keep.txt", [1])], ["temp"]⟩
    ∧ (convert_pdf ⟨"s1", .statusErr, .exc "x", .exc, true⟩ ⟨none, none⟩
        ⟨[("keep.txt", [1])], ["temp"]⟩).made = []
    ∧ (convert_pdf ⟨"s1", .statusErr, .exc "x", .exc, true⟩ ⟨none, none⟩
        ⟨[("keep.txt", [1])], ["temp"]⟩).writes = []
    ∧ (convert_pdf ⟨"s1", .statusErr, .exc "x", .exc, true⟩ ⟨none, none⟩
        ⟨[("keep.txt", [1])], ["temp"]⟩).dl = [] :=
  reject_422_frame ⟨"s1", .statusErr, .exc "x", .exc, true⟩ ⟨none, none⟩
    ⟨[("keep.txt", [1])], ["temp"]⟩ (by decide)

/-! ## The upload path (C6) -/

theorem afterResolve_resolved (env : Env) (td pp : String) (fs : FS)
    (dl : List String) (wr : List (String × Bytes))
    (h1 : existsFile fs pp = true) (h2 : ¬ sizeF fs pp = 0) :
    (afterResolve env td pp fs dl wr).writes = wr
    ∧ (afterResolve env td pp fs dl wr).dl = dl
    ∧ (afterResolve env td pp fs dl wr).rasterized = [pp]
    ∧ ∀ s d, (afterResolve env td pp fs dl wr).result = .error (s, d) → s = 500 := by
  have hcond : (!existsFile fs pp || (sizeF fs pp == 0)) = false := by
    simp [h1, h2]
  simp only [afterResolve, hcond, Bool.false_eq_true, if_false]
  split
  · refine ⟨rfl, rfl, rfl, ?_⟩
    intro s d hh
    simp only [Except.error.injEq, Prod.mk.injEq] at hh
    exact hh.1.symm
  · split
    · refine ⟨rfl, rfl, rfl, ?_⟩
      intro s d hh
      simp only [Except.error.injEq, Prod.mk.injEq] at hh
      exact hh.1.symm
    · split
      · refine ⟨rfl, rfl, rfl, ?_⟩
        intro s d hh
        simp only [Except.error.injEq, Prod.mk.injEq] at hh
        exact hh.1.symm
      · refine ⟨rfl, rfl, rfl, ?_⟩
        intro s d hh
        simp at hh

/-- C6: for an upload request, the response has status 400 exactly when
the filename lacks a case-insensitive `.pdf` suffix or the read content is
empty; otherwise the full byte content is written verbatim to the fixed
path `input.pdf` inside the workspace and processing continues with that
path (it is the path handed to the rasterizer). -/
theorem upload_path_spec (env : Env) (fs : FS) (up : UploadFile) :
    ((convert_pdf env ⟨some up, none⟩ fs).resp.status = 400
        ↔ (endsWithPdfCI up.filename = false ∨ up.content = []))
    ∧ (endsWithPdfCI up.filename = true → up.content ≠ [] →
        (convert_pdf env ⟨some up, none⟩ fs).writes
            = [(joinP (joinP TEMP_DIR env.session_id) "input.pdf", up.content)]
        ∧ (convert_pdf env ⟨some up, none⟩ fs).rasterized
            = [joinP (joinP TEMP_DIR env.session_id) "input.pdf"]) := by
  have hv1 : (!truthyPdf (some up) && !truthyUrl (none : Option String)) = false := by
    simp [truthyPdf]
  have hv2 : (truthyPdf (some up) && truthyUrl (none : Option String)) = false := by
    simp [truthyUrl]
  have hu : truthyUrl (none : Option String) = false := rfl
  by_cases hf : endsWithPdfCI up.filename = true
  · by_cases hcc : up.content = []
    · have hbody : tryBody env ⟨some up, none⟩ (joinP TEMP_DIR env.session_id)
          (mkdirp fs (joinP TEMP_DIR env.session_id))
          = ⟨mkdirp fs (joinP TEMP_DIR env.session_id), [], [], [],
             .error (400, "El archivo PDF esta vacio")⟩ := by
        simp [tryBody, hu, hf, hcc]
      simp only [convert_pdf, hv1, hv2, Bool.false_eq_true, if_false, hbody]
      constructor
      · simp [Resp.status, hcc]
      · intro _ hne
        exact absurd hcc hne
    · have hlen : ¬ up.content.length = 0 := fun h => hcc (List.length_eq_zero.mp h)
      have hlen2 : (up.content.length == 0) = false := by
        simp [hlen]
      have hbody : tryBody env ⟨some up, none⟩ (joinP TEMP_DIR env.session_id)
          (mkdirp fs (joinP TEMP_DIR env.session_id))
          = afterResolve env (joinP TEMP_DIR env.session_id)
              (joinP (joinP TEMP_DIR env.session_id) "input.pdf")
              (writeFile (mkdirp fs (joinP TEMP_DIR env.session_id))
                (joinP (joinP TEMP_DIR env.session_id) "input.pdf") up.content)
              []
              [(joinP (joinP TEMP_DIR env.session_id) "input.pdf", up.content)] := by
        simp [tryBody, hu, hf, hlen2]
      obtain ⟨hw, hd, hr, hs⟩ := afterResolve_resolved env
        (joinP TEMP_DIR env.session_id)
        (joinP (joinP TEMP_DIR env.session_id) "input.pdf")
        (writeFile (mkdirp fs (joinP TEMP_DIR env.session_id))
          (joinP (joinP TEMP_DIR env.session_id) "input.pdf") up.content)
        []
        [(joinP (joinP TEMP_DIR env.session_id) "input.pdf", up.content)]
        (existsFile_writeFile_self _ _ _)
        (by rw [sizeF_writeFile]; exact hlen)
      simp only [convert_pdf, hv1, hv2, Bool.false_eq_true, if_false, hbody]
      cases hres : (afterResolve env (joinP TEMP_DIR env.session_id)
          (joinP (joinP TEMP_DIR env.session_id) "input.pdf")
          (writeFile (mkdirp fs (joinP TEMP_DIR env.session_id))
            (joinP (joinP TEMP_DIR env.session_id) "input.pdf") up.content)
          []
          [(joinP (joinP TEMP_DIR env.session_id) "input.pdf", up.content)]).result with
      | ok zp =>
          simp only [hres]
          constructor
          · simp [Resp.status, hf, hcc]
          · intro _ _
            exact ⟨hw, hr⟩
      | error sd =>
          obtain ⟨s, d⟩ := sd
          have h500 := hs s d hres
          simp only [hres]
          constructor
          · simp only [Resp.status, h500]
            constructor
            · intro habs
              omega
            · intro hor
              rcases hor with hor | hor
              · rw [hf] at hor
                exact absurd hor (by decide)
              · exact absurd hor hcc
          · intro _ _
            exact ⟨hw, hr⟩
  · have hf2 : endsWithPdfCI up.filename = false := by
      simpa using hf
    have hbody : tryBody env ⟨some up, none⟩ (joinP TEMP_DIR env.session_id)
        (mkdirp fs (joinP TEMP_DIR env.session_id))
        = ⟨mkdirp fs (joinP TEMP_DIR env.session_id), [], [], [],
           .error (400, "El archivo debe ser PDF")⟩ := by
      simp [tryBody, hu, hf2]
    simp only [convert_pdf, hv1, hv2, Bool.false_eq_true, if_false, hbody]
    constructor
    · simp [Resp.status, hf2]
    · intro hft _
      rw [hf2] at hft
      exact absurd hft (by decide)

/-- C6 witness: a valid upload on a concrete request writes the bytes to
`temp/s1/input.pdf` and hands that path to the rasterizer, via
`upload_path_spec`. -/
theorem upload_path_spec_witness :
    (convert_pdf ⟨"s1", .statusErr, .pages [⟨[1]⟩], .written [1, 2], true⟩
        ⟨some ⟨"a.pdf", [5]⟩, none⟩ ⟨[], ["temp"]⟩).writes
      = [(joinP (joinP TEMP_DIR "s1") "input.pdf", [5])]
    ∧ (convert_pdf ⟨"s1", .statusErr, .pages [⟨[1]⟩], .written [1, 2], true⟩
        ⟨some ⟨"a.pdf", [5]⟩, none⟩ ⟨[], ["temp"]⟩).rasterized
      = [joinP (joinP TEMP_DIR "s1") "input.pdf"] :=
  (upload_path_spec ⟨"s1", .statusErr, .pages [⟨[1]⟩], .written [1, 2], true⟩
    ⟨[], ["temp"]⟩ ⟨"a.pdf", [5]⟩).2 (by decide) (by decide)
